import Mathlib

/-!
# Verification of the `extended-haxball.js` contract layer

The repository is a typing/packaging layer around the externally hosted
HaxBall headless runtime.  Its visible source is:

* `src/types/index.d.ts` — ambient TypeScript declarations for the
  configuration object, the room-control interface (`RoomObject`), and the
  stadium (`.hbs`) file schema;
* `src/test/room.js` and `src/unnamed/part_000` — two versions of the
  mocha integration harness that boots a room against the live host.

This file embeds two layers:

1. the *declared shape* of the TypeScript interfaces, as tables of field
   and function declarations transcribed from `index.d.ts`, so that claims
   about optional/required markings, field sets and return types become
   decidable statements;
2. a *runtime model* of the behaviour the specification attributes to the
   remote host (partial disc updates, null-returning accessors, stadium
   index validation, colour serialisation).  The host implementation is not
   part of this repository, so those definitions are modelled from the
   specification and are marked as such.
-/

namespace Haxball

/-- A fragment of the TypeScript type language, just rich enough to record
the declared types appearing in `src/types/index.d.ts`: named types,
`Promise<T>`, `T[]`, and tuple/union shapes are collapsed to the forms the
claims need. -/
inductive TSType where
  | named : String → TSType
  | promise : TSType → TSType
  | arrayOf : TSType → TSType
  deriving DecidableEq, Repr

/-- Does a declared type have the form `Promise<...>`? -/
def TSType.isPromise : TSType → Bool
  | .promise _ => true
  | _ => false

/-- One field of a declared TypeScript interface: its name, whether it is
marked optional (`?`), and its declared type. -/
structure FieldDecl where
  name : String
  optional : Bool
  ty : TSType
  deriving DecidableEq, Repr

/-- One declared function: its name, the declared type of its single
parameter, and its declared return type. -/
structure FunDecl where
  name : String
  param : TSType
  ret : TSType
  deriving DecidableEq, Repr

/-- Look a field up by name in a declaration table (first match). -/
def findField (fs : List FieldDecl) (n : String) : Option FieldDecl :=
  fs.find? (fun f => f.name = n)

/-- `interface RoomConfigObject` (src/types/index.d.ts lines 370-379): the
base configuration consumed by the upstream headless host.  Every field is
marked optional. -/
def roomConfigObjectFields : List FieldDecl :=
  [ ⟨"roomName", true, .named "string"⟩
  , ⟨"playerName", true, .named "string"⟩
  , ⟨"password", true, .named "string"⟩
  , ⟨"maxPlayers", true, .named "number"⟩
  , ⟨"public", true, .named "boolean"⟩
  , ⟨"geo", true, .named "GeoCoordinates"⟩
  , ⟨"token", true, .named "string"⟩
  , ⟨"noPlayer", true, .named "boolean"⟩ ]

/-- The fields `interface RoomConfig extends RoomConfigObject` declares
itself (src/types/index.d.ts lines 4-13): `token` is re-declared without
`?` (required), `proxy`, `debug` and `webrtc` are optional. -/
def roomConfigOwnFields : List FieldDecl :=
  [ ⟨"token", false, .named "string"⟩
  , ⟨"proxy", true, .named "string"⟩
  , ⟨"debug", true, .named "boolean"⟩
  , ⟨"webrtc", true, .named "WebRTCOverrides"⟩ ]

/-- TypeScript interface extension: a member re-declared by the derived
interface overrides the base member of the same name; all other base
members are inherited. -/
def mergeInterface (own base : List FieldDecl) : List FieldDecl :=
  own ++ base.filter (fun f => (findField own f.name).isNone)

/-- The effective field set of the extended `RoomConfig`. -/
def roomConfigFields : List FieldDecl :=
  mergeInterface roomConfigOwnFields roomConfigObjectFields

/-- `export function HBInit(config: RoomConfig): Promise<RoomObject>`
(src/types/index.d.ts line 15, inside `declare module 'haxball.js'`). -/
def hbInitModuleDecl : FunDecl :=
  ⟨"HBInit", .named "RoomConfig", .promise (.named "RoomObject")⟩

/-- `declare function HBInit(roomConfig: RoomConfigObject): RoomObject`
(src/types/index.d.ts line 520, the ambient upstream declaration). -/
def hbInitAmbientDecl : FunDecl :=
  ⟨"HBInit", .named "RoomConfigObject", .named "RoomObject"⟩

/-- Both declarations of `HBInit` present in the type file. -/
def hbInitDecls : List FunDecl :=
  [hbInitModuleDecl, hbInitAmbientDecl]

/-- `interface CollisionFlagsObject` (src/types/index.d.ts lines 149-163):
thirteen numeric bitmask constants. -/
def collisionFlagsFields : List FieldDecl :=
  [ ⟨"ball", false, .named "number"⟩
  , ⟨"red", false, .named "number"⟩
  , ⟨"blue", false, .named "number"⟩
  , ⟨"redKO", false, .named "number"⟩
  , ⟨"blueKO", false, .named "number"⟩
  , ⟨"wall", false, .named "number"⟩
  , ⟨"all", false, .named "number"⟩
  , ⟨"kick", false, .named "number"⟩
  , ⟨"score", false, .named "number"⟩
  , ⟨"c0", false, .named "number"⟩
  , ⟨"c1", false, .named "number"⟩
  , ⟨"c2", false, .named "number"⟩
  , ⟨"c3", false, .named "number"⟩ ]

/-- The collision-flag names the specification enumerates: ball, red, blue,
wall, kick, score plus the four custom slots.  Written from the spec's
words, to be compared with `collisionFlagsFields`. -/
def specClaimedCollisionFlagNames : List String :=
  ["ball", "red", "blue", "wall", "kick", "score", "c0", "c1", "c2", "c3"]

/-- `interface Vertex` (src/types/index.d.ts lines 185-190): four optional
fields, no coordinates. -/
def vertexFields : List FieldDecl :=
  [ ⟨"bCoef", true, .named "number"⟩
  , ⟨"cMask", true, .arrayOf (.named "string")⟩
  , ⟨"cGroup", true, .arrayOf (.named "string")⟩
  , ⟨"trait", true, .named "string"⟩ ]

/-- `interface Segment` (src/types/index.d.ts lines 201-213). -/
def segmentFields : List FieldDecl :=
  [ ⟨"v0", false, .named "number"⟩
  , ⟨"v1", false, .named "number"⟩
  , ⟨"bCoef", true, .named "number"⟩
  , ⟨"curve", true, .named "number"⟩
  , ⟨"curveF", true, .named "number"⟩
  , ⟨"bias", true, .named "number"⟩
  , ⟨"vis", true, .named "boolean"⟩
  , ⟨"color", true, .named "Color"⟩
  , ⟨"cMask", true, .arrayOf (.named "string")⟩
  , ⟨"cGroup", true, .arrayOf (.named "string")⟩
  , ⟨"trait", true, .named "string"⟩ ]

/-- The `color` fields of `Disc`, `Joint` and `BackgroundObject`
(src/types/index.d.ts lines 264, 284, 323): all declared with type
`Color`, all optional. -/
def discColorField : FieldDecl := ⟨"color", true, .named "Color"⟩

def jointColorField : FieldDecl := ⟨"color", true, .named "Color"⟩

def backgroundColorField : FieldDecl := ⟨"color", true, .named "Color"⟩

/-- The declared return type of an event-handler slot: all handlers are
declared `void` except `onPlayerChat`, declared `boolean | void`. -/
inductive HandlerRet where
  | rvoid
  | rboolOrVoid
  deriving DecidableEq, Repr

/-- One event-handler slot of `RoomObject`: name, whether the member is
marked optional (`?`), and its declared return type. -/
structure HandlerDecl where
  name : String
  optional : Bool
  ret : HandlerRet
  deriving DecidableEq, Repr

/-- The event-handler slots of `interface RoomObject`
(src/types/index.d.ts lines 464 and 473-508).  `onPlayerInput` is declared
in the `//Additions` block without a `?` marker; all the slots in the
`Event Handlers` block carry `?`. -/
def roomEventHandlers : List HandlerDecl :=
  [ ⟨"onPlayerInput", false, .rvoid⟩
  , ⟨"onPlayerJoin", true, .rvoid⟩
  , ⟨"onPlayerLeave", true, .rvoid⟩
  , ⟨"onTeamVictory", true, .rvoid⟩
  , ⟨"onPlayerChat", true, .rboolOrVoid⟩
  , ⟨"onPlayerBallKick", true, .rvoid⟩
  , ⟨"onTeamGoal", true, .rvoid⟩
  , ⟨"onGameStart", true, .rvoid⟩
  , ⟨"onGameStop", true, .rvoid⟩
  , ⟨"onPlayerAdminChange", true, .rvoid⟩
  , ⟨"onPlayerTeamChange", true, .rvoid⟩
  , ⟨"onPlayerKicked", true, .rvoid⟩
  , ⟨"onGameTick", true, .rvoid⟩
  , ⟨"onGamePause", true, .rvoid⟩
  , ⟨"onGameUnpause", true, .rvoid⟩
  , ⟨"onPositionsReset", true, .rvoid⟩
  , ⟨"onPlayerActivity", true, .rvoid⟩
  , ⟨"onStadiumChange", true, .rvoid⟩
  , ⟨"onRoomLink", true, .rvoid⟩
  , ⟨"onKickRateLimitSet", true, .rvoid⟩
  , ⟨"onTeamsLockChange", true, .rvoid⟩ ]

/-! ## Runtime data model

The record shapes below are translated from the interfaces in
`src/types/index.d.ts`.  TypeScript `number` is modelled as `Int`. -/

/-- `enum TeamID` (src/types/index.d.ts lines 34-38). -/
inductive TeamID where
  | spectators
  | red
  | blue
  deriving DecidableEq, Repr

/-- `interface Position` (src/types/index.d.ts lines 47-50). -/
structure Position where
  x : Int
  y : Int
  deriving DecidableEq, Repr

/-- `interface PlayerObject` (src/types/index.d.ts lines 97-105). -/
structure PlayerObject where
  id : Nat
  name : String
  team : TeamID
  admin : Bool
  position : Option Position
  auth : Option String
  conn : String
  deriving DecidableEq, Repr

/-- `interface InputObject` (src/types/index.d.ts lines 382-388). -/
structure InputObject where
  up : Bool
  down : Bool
  left : Bool
  right : Bool
  shoot : Bool
  deriving DecidableEq, Repr

/-- `interface DiscPropertiesObject` (src/types/index.d.ts lines 119-133):
the full physical state of a disc. -/
structure DiscPropertiesObject where
  x : Int
  y : Int
  xspeed : Int
  yspeed : Int
  xgravity : Int
  ygravity : Int
  radius : Int
  bCoeff : Int
  invMass : Int
  damping : Int
  color : Int
  cMask : Int
  cGroup : Int
  deriving DecidableEq, Repr

/-- `type PartialDiscProperties = Partial<DiscPropertiesObject>`
(src/types/index.d.ts line 139): every field may be absent. -/
structure PartialDiscProperties where
  x : Option Int := none
  y : Option Int := none
  xspeed : Option Int := none
  yspeed : Option Int := none
  xgravity : Option Int := none
  ygravity : Option Int := none
  radius : Option Int := none
  bCoeff : Option Int := none
  invMass : Option Int := none
  damping : Option Int := none
  color : Option Int := none
  cMask : Option Int := none
  cGroup : Option Int := none
  deriving DecidableEq, Repr

/-- The partial-properties value `{x: v}`: only `x` is present. -/
def onlyX (v : Int) : PartialDiscProperties :=
  { x := some v }

/-- Modelled from the spec: the merge performed by `setDiscProperties` and
`setPlayerDiscProperties` on the remote host — each field present in the
argument replaces the disc's field, each absent field is left untouched
("an update call never resets unspecified fields to defaults", spec section 3).
The host implementation is not part of this repository. -/
def applyDiscProperties (d : DiscPropertiesObject) (p : PartialDiscProperties) :
    DiscPropertiesObject where
  x := p.x.getD d.x
  y := p.y.getD d.y
  xspeed := p.xspeed.getD d.xspeed
  yspeed := p.yspeed.getD d.yspeed
  xgravity := p.xgravity.getD d.xgravity
  ygravity := p.ygravity.getD d.ygravity
  radius := p.radius.getD d.radius
  bCoeff := p.bCoeff.getD d.bCoeff
  invMass := p.invMass.getD d.invMass
  damping := p.damping.getD d.damping
  color := p.color.getD d.color
  cMask := p.cMask.getD d.cMask
  cGroup := p.cGroup.getD d.cGroup

/-- Modelled from the spec: the room state held by the remote host, as far
as the accessor contract observes it — the game discs in index order, the
connected players, the per-player discs and the per-player input state. -/
structure RoomState where
  discs : List DiscPropertiesObject
  players : List PlayerObject
  playerDiscs : List (Nat × DiscPropertiesObject)
  inputs : List (Nat × InputObject)
  deriving Repr

/-- Replace the disc at position `i` by its merge with `p`; positions past
the end of the list are left alone. -/
def setDiscList : List DiscPropertiesObject → Nat → PartialDiscProperties →
    List DiscPropertiesObject
  | [], _, _ => []
  | d :: ds, 0, p => applyDiscProperties d p :: ds
  | d :: ds, n + 1, p => d :: setDiscList ds n p

/-- Modelled from the spec: `room.setDiscProperties(discIndex, properties)`. -/
def setDiscProperties (r : RoomState) (i : Nat) (p : PartialDiscProperties) :
    RoomState :=
  { r with discs := setDiscList r.discs i p }

/-- Modelled from the spec: `room.getDiscProperties(discIndex)` — the full
state of the disc at that index, or null when no such disc exists. -/
def getDiscProperties (r : RoomState) (i : Nat) : Option DiscPropertiesObject :=
  r.discs[i]?

/-- Modelled from the spec: `room.setPlayerDiscProperties(playerId, properties)` —
the disc of the player with that id is merged with the argument. -/
def setPlayerDiscProperties (r : RoomState) (pid : Nat)
    (p : PartialDiscProperties) : RoomState :=
  { r with
    playerDiscs :=
      r.playerDiscs.map fun en =>
        cond (en.1 == pid) (en.1, applyDiscProperties en.2 p) en }

/-- Modelled from the spec: `room.getPlayerDiscProperties(playerId)`, null
when the player (or their disc) does not exist. -/
def getPlayerDiscProperties (r : RoomState) (pid : Nat) :
    Option DiscPropertiesObject :=
  (r.playerDiscs.find? fun en => en.1 == pid).map Prod.snd

/-- Modelled from the spec: `room.getPlayer(playerId)`, null when no player
with that id is connected. -/
def getPlayer (r : RoomState) (pid : Nat) : Option PlayerObject :=
  r.players.find? fun pl => pl.id == pid

/-- Modelled from the spec: `room.getInputObject(playerId)`, null when no
input state is known for that id. -/
def getInputObject (r : RoomState) (pid : Nat) : Option InputObject :=
  (r.inputs.find? fun en => en.1 == pid).map Prod.snd

/-! ## Stadium schema and colours -/

/-- A JSON-like value, the serialized form of stadium data crossing the
contract boundary. -/
inductive JVal where
  | jnull
  | jbool : Bool → JVal
  | jnum : Int → JVal
  | jstr : String → JVal
  | jarr : List JVal → JVal

/-- `type Color = 'transparent' | string | [number, number, number]`
(src/types/index.d.ts line 175): the three polymorphic colour forms. -/
inductive Color where
  | transparent
  | hex : String → Color
  | rgb : Int → Int → Int → Color
  deriving DecidableEq, Repr

/-- Is `c` one of the sixteen hexadecimal digit characters? -/
def isHexDigitChar (c : Char) : Bool :=
  c.isDigit || (decide (c ≥ 'A') && decide (c ≤ 'F')) ||
    (decide (c ≥ 'a') && decide (c ≤ 'f'))

/-- Is `s` a 6-hex-digit colour string such as `FF0000`? -/
def isHex6 (s : String) : Bool :=
  s.length == 6 && s.toList.all isHexDigitChar

/-- Modelled from the spec: serialization of a `Color` value into the
stadium file, uniform for every colour-typed field (spec section 4.3).  The
serializer is part of the remote host, not of this repository. -/
def serializeColor : Color → JVal
  | .transparent => .jstr "transparent"
  | .hex s => .jstr s
  | .rgb r g b => .jarr [.jnum r, .jnum g, .jnum b]

/-- Modelled from the spec: reading a colour back from serialized form —
the literal `transparent`, a 6-hex-digit string, or a 3-element numeric
array are accepted; anything else is rejected. -/
def parseColor : JVal → Option Color
  | .jstr s =>
      if s = "transparent" then some .transparent
      else if isHex6 s then some (.hex s) else none
  | .jarr [.jnum r, .jnum g, .jnum b] => some (.rgb r g b)
  | _ => none

/-- `interface Vertex` (src/types/index.d.ts lines 185-190) as a record:
only the four optional attribute fields, no coordinates. -/
structure Vertex where
  bCoef : Option Int := none
  cMask : Option (List String) := none
  cGroup : Option (List String) := none
  trait : Option String := none
  deriving DecidableEq, Repr

/-- `interface Segment` (src/types/index.d.ts lines 201-213).  `v0`/`v1`
are indices into the stadium's `vertexes` list. -/
structure Segment where
  v0 : Int
  v1 : Int
  bCoef : Option Int := none
  curve : Option Int := none
  curveF : Option Int := none
  bias : Option Int := none
  vis : Option Bool := none
  color : Option Color := none
  cMask : Option (List String) := none
  cGroup : Option (List String) := none
  trait : Option String := none
  deriving DecidableEq, Repr

/-- `interface Goal` (src/types/index.d.ts lines 223-228). -/
structure Goal where
  p0 : Int × Int
  p1 : Int × Int
  team : Bool
  trait : Option String := none
  deriving DecidableEq, Repr

/-- `interface Plane` (src/types/index.d.ts lines 238-245). -/
structure Plane where
  normal : Int × Int
  dist : Int
  bCoef : Option Int := none
  cMask : Option (List String) := none
  cGroup : Option (List String) := none
  trait : Option String := none
  deriving DecidableEq, Repr

/-- `interface Disc` (src/types/index.d.ts lines 257-269). -/
structure Disc where
  pos : Int × Int
  speed : Option (Int × Int) := none
  gravity : Option (Int × Int) := none
  radius : Int
  invMass : Option Int := none
  damping : Option Int := none
  color : Option Color := none
  bCoef : Option Int := none
  cMask : Option (List String) := none
  cGroup : Option (List String) := none
  trait : Option String := none
  deriving DecidableEq, Repr

/-- The `length` field of a joint: `null | number | [number, number]`
(src/types/index.d.ts line 282). -/
inductive JointLength where
  | nullLen
  | fixedLen : Int → JointLength
  | rangeLen : Int → Int → JointLength
  deriving DecidableEq, Repr

/-- The `strength` field of a joint: `'rigid' | number`
(src/types/index.d.ts line 283). -/
inductive JointStrength where
  | rigid
  | spring : Int → JointStrength
  deriving DecidableEq, Repr

/-- `interface Joint` (src/types/index.d.ts lines 279-286).  `d0`/`d1` are
indices into the stadium's `discs` list. -/
structure Joint where
  d0 : Int
  d1 : Int
  length : Option JointLength := none
  strength : Option JointStrength := none
  color : Option Color := none
  trait : Option String := none
  deriving DecidableEq, Repr

/-- `interface PlayerPhysics` (src/types/index.d.ts lines 296-305). -/
structure PlayerPhysics where
  gravity : Option (Int × Int) := none
  radius : Option Int := none
  invMass : Option Int := none
  bCoef : Option Int := none
  damping : Option Int := none
  cGroup : Option (List String) := none
  acceleration : Option Int := none
  kickingAcceleration : Option Int := none
  deriving DecidableEq, Repr

/-- `interface BackgroundObject` (src/types/index.d.ts lines 316-324).
The `type` field ranges over `'grass' | 'hockey' | 'none'`. -/
structure BackgroundObject where
  bgType : Option String := none
  width : Option Int := none
  height : Option Int := none
  kickOffRadius : Option Int := none
  cornerRadius : Option Int := none
  goalLine : Option Int := none
  color : Option Color := none
  deriving DecidableEq, Repr

/-- The `ballPhysics` field: a `Disc` override or the literal `'disc0'`
(src/types/index.d.ts line 356). -/
inductive BallPhysics where
  | disc0
  | discSpec : Disc → BallPhysics
  deriving DecidableEq, Repr

/-- `interface StadiumObject` (src/types/index.d.ts lines 336-357), the
root of a `.hbs` stadium file.  `cameraFollow` ranges over
`'player' | 'ball'` and `kickOffReset` over `'full' | 'partial'`, both
kept as strings. -/
structure StadiumObject where
  name : String
  width : Option Int := none
  height : Option Int := none
  maxViewWidth : Option Int := none
  cameraFollow : Option String := none
  spawnDistance : Option Int := none
  canBeStored : Option Bool := none
  kickOffReset : Option String := none
  bg : Option BackgroundObject := none
  traits : Option (List (String × JVal)) := none
  vertexes : List Vertex
  segments : List Segment
  goals : List Goal
  discs : List Disc
  planes : List Plane
  joints : List Joint
  redSpawnPoints : Option (List (Int × Int)) := none
  blueSpawnPoints : Option (List (Int × Int)) := none
  playerPhysics : Option PlayerPhysics := none
  ballPhysics : Option BallPhysics := none

/-- Is `v` a valid position in a sequence of length `n`? -/
def validIndex (v : Int) (n : Nat) : Bool :=
  decide (0 ≤ v) && decide (v < (n : Int))

/-- Modelled from the spec: the load-time schema validation of stadium
index references — every segment's `v0`/`v1` must index into `vertexes`
and every joint's `d0`/`d1` into `discs`; a stadium violating this is
rejected at load time (spec sections 3 and 8).  The validator runs on the
remote host, not in this layer. -/
def stadiumIndicesValid (s : StadiumObject) : Bool :=
  (s.segments.all fun seg =>
      validIndex seg.v0 s.vertexes.length && validIndex seg.v1 s.vertexes.length) &&
  (s.joints.all fun j =>
      validIndex j.d0 s.discs.length && validIndex j.d1 s.discs.length)

/-! ## Integration test harness

Transcribed from `src/test/room.js` and `src/unnamed/part_000`, two
versions of the same mocha suite. -/

/-- The four environment variables the harness reads; a variable is either
unset (`none`) or set to a string, possibly empty. -/
structure TestEnv where
  ciToken : Option String
  testToken : Option String
  ciProxy : Option String
  testProxy : Option String
  deriving DecidableEq, Repr

/-- JavaScript truthiness of an environment variable: set and non-empty. -/
def truthy : Option String → Bool
  | none => false
  | some s => s != ""

/-- JavaScript `a || b` on environment variables: `a` when truthy,
otherwise `b`. -/
def envOr (a b : Option String) : Option String :=
  if truthy a then a else b

/-- `beforeEach(async () => await delay(5000))`: the fixed delay, in
milliseconds, run before every test in both versions of the suite
(src/test/room.js line 12, src/unnamed/part_000 line 12). -/
def harnessBeforeEachDelayMs : Nat := 5000

/-- src/test/room.js line 15: the room-creation test is declared with a
plain `it(...)`, so it is scheduled regardless of the environment. -/
def roomJsCreateScheduled (_ : TestEnv) : Bool := true

/-- src/unnamed/part_000 lines 15-17: the room-creation test is declared
with `(CI_HB_HEADLESS_TOKEN || TEST_HB_HEADLESS_TOKEN ? it : it.skip)`. -/
def part000CreateScheduled (e : TestEnv) : Bool :=
  truthy (envOr e.ciToken e.testToken)

/-- src/test/room.js line 36: the proxy test is declared with
`(CI_HB_PROXY || TEST_HB_PROXY ? it : it.skip)`. -/
def roomJsProxyScheduled (e : TestEnv) : Bool :=
  truthy (envOr e.ciProxy e.testProxy)

/-- src/unnamed/part_000 line 36: same gate as in room.js. -/
def part000ProxyScheduled (e : TestEnv) : Bool :=
  truthy (envOr e.ciProxy e.testProxy)

/-- src/test/room.js lines 36-44: the proxy test body reaches `HBInit`
only when the test was scheduled and `CI_HB_PROXY == '1'` does not hold
(otherwise `this.skip()` fires). -/
def roomJsProxyBodyRuns (e : TestEnv) : Bool :=
  truthy (envOr e.ciProxy e.testProxy) && !(e.ciProxy == some "1")

/-- src/unnamed/part_000 lines 36-41: the proxy test body reaches `HBInit`
only when scheduled and not short-circuited by `CI_HB_PROXY == '1'`. -/
def part000ProxyBodyRuns (e : TestEnv) : Bool :=
  truthy (envOr e.ciProxy e.testProxy) && !(e.ciProxy == some "1")

/-- The environment with none of the four variables set. -/
def emptyTestEnv : TestEnv := ⟨none, none, none, none⟩

/-- The configuration option names the specification enumerates (its
"webrtc-override" option is the `webrtc` field).  Written from the spec's
words, to be compared with `roomConfigFields`. -/
def specClaimedConfigOptionNames : List String :=
  ["roomName", "playerName", "password", "maxPlayers", "public", "geo",
   "token", "noPlayer", "proxy", "debug", "webrtc"]

/-- Is `n` a custom collision-slot name, i.e. `c` followed by one digit? -/
def isCustomSlotName (n : String) : Bool :=
  match n.toList with
  | ['c', d] => d.isDigit
  | _ => false

/-! ## Helper lemmas -/

theorem truthy_envOr (a b : Option String) :
    truthy (envOr a b) = (truthy a || truthy b) := by
  cases ha : truthy a <;> simp [envOr, ha]

theorem setDiscList_getElem? (l : List DiscPropertiesObject) (i : Nat)
    (p : PartialDiscProperties) (d : DiscPropertiesObject)
    (h : l[i]? = some d) :
    (setDiscList l i p)[i]? = some (applyDiscProperties d p) := by
  induction l generalizing i with
  | nil => simp at h
  | cons a l ih =>
    cases i with
    | zero =>
      simp only [List.getElem?_cons_zero, Option.some.injEq] at h
      subst h
      simp [setDiscList]
    | succ n =>
      simp only [List.getElem?_cons_succ] at h
      simpa [setDiscList] using ih n h

theorem find?_key_update (l : List (Nat × DiscPropertiesObject)) (pid : Nat)
    (p : PartialDiscProperties) :
    ((l.map fun en => cond (en.1 == pid) (en.1, applyDiscProperties en.2 p) en).find?
        fun en => en.1 == pid)
      = (l.find? fun en => en.1 == pid).map
          fun en => (en.1, applyDiscProperties en.2 p) := by
  induction l with
  | nil => rfl
  | cons a l ih =>
    cases hb : (a.1 == pid) with
    | true =>
      have h1 : cond (a.1 == pid) (a.1, applyDiscProperties a.2 p) a
          = (a.1, applyDiscProperties a.2 p) := by rw [hb, cond_true]
      rw [List.map_cons, h1,
        @List.find?_cons_of_pos _ (fun en => en.1 == pid)
          (a.1, applyDiscProperties a.2 p) _ (by simp [hb]),
        @List.find?_cons_of_pos _ (fun en => en.1 == pid) a l hb,
        Option.map_some']
    | false =>
      have h1 : cond (a.1 == pid) (a.1, applyDiscProperties a.2 p) a = a := by
        rw [hb, cond_false]
      rw [List.map_cons, h1,
        @List.find?_cons_of_neg _ (fun en => en.1 == pid) a _ (by simp [hb]),
        @List.find?_cons_of_neg _ (fun en => en.1 == pid) a l (by simp [hb]),
        ih]

/-- A concrete disc state used to instantiate the theorems below. -/
def witnessDisc : DiscPropertiesObject :=
  ⟨1, 2, 3, 4, 5, 6, 7, 8, 9, 10, 11, 12, 13⟩

/-- A concrete room: one game disc and one player disc for player 7. -/
def witnessRoom : RoomState :=
  { discs := [witnessDisc], players := [], playerDiscs := [(7, witnessDisc)],
    inputs := [] }

/-- The room with no discs, players or inputs at all. -/
def emptyRoomState : RoomState := ⟨[], [], [], []⟩

/-! ## Claims -/

/-- C3 counterexample: the type file also contains the ambient upstream
declaration `declare function HBInit(roomConfig: RoomConfigObject): RoomObject`
(line 520), whose declared return type is `RoomObject` itself, not a
`Promise` — so, as stated over both cited declarations, `HBInit` does not
always return a promise. -/
theorem hbInit_ambient_sync_counterexample :
    hbInitAmbientDecl ∈ hbInitDecls
    ∧ hbInitAmbientDecl.name = "HBInit"
    ∧ hbInitAmbientDecl.ret = .named "RoomObject"
    ∧ hbInitAmbientDecl.ret.isPromise = false := by decide

/-- C3 (amended): the `HBInit` exported by `declare module 'haxball.js'`
(line 15) takes the extended `RoomConfig` and returns
`Promise<RoomObject>` — asynchronous, never handing back the room handle
directly — while the ambient upstream declaration at line 520 takes a
`RoomConfigObject` and returns `RoomObject` synchronously. -/
theorem hbInit_return_types :
    hbInitModuleDecl.param = .named "RoomConfig"
    ∧ hbInitModuleDecl.ret = .promise (.named "RoomObject")
    ∧ hbInitModuleDecl.ret.isPromise = true
    ∧ hbInitAmbientDecl.param = .named "RoomConfigObject"
    ∧ hbInitAmbientDecl.ret = .named "RoomObject"
    ∧ hbInitAmbientDecl.ret.isPromise = false
    ∧ hbInitDecls = [hbInitModuleDecl, hbInitAmbientDecl] := by decide

/-- C5 counterexample: `onPlayerInput` is declared in the `//Additions`
block of `RoomObject` (line 464) without a `?` marker, so it is not an
optional callback field, contradicting the claim that every handler slot,
`onPlayerInput` included, is optional. -/
theorem onPlayerInput_not_optional_counterexample :
    (⟨"onPlayerInput", false, .rvoid⟩ : HandlerDecl) ∈ roomEventHandlers
    ∧ (roomEventHandlers.find? fun h => h.name == "onPlayerInput")
        = some ⟨"onPlayerInput", false, .rvoid⟩
    ∧ ¬ roomEventHandlers.all (fun h => h.optional) = true := by decide

/-- C5 (amended): every event-handler slot of `RoomObject` except
`onPlayerInput` is an optional assignable callback field; `onPlayerInput`
is declared as a required member; and among all handlers exactly
`onPlayerChat` has an observable return type (`boolean | void`), every
other handler being declared `void`. -/
theorem event_handler_slots_decl (h : HandlerDecl)
    (hm : h ∈ roomEventHandlers) :
    (h.name ≠ "onPlayerInput" → h.optional = true)
    ∧ (h.name = "onPlayerInput" → h.optional = false)
    ∧ (h.ret = .rboolOrVoid ↔ h.name = "onPlayerChat") := by
  fin_cases hm <;> exact ⟨by decide, by decide, by decide⟩

/-- C5 witness: instantiating `event_handler_slots_decl` at the
`onPlayerChat` slot. -/
theorem event_handler_slots_decl_witness :
    (HandlerDecl.mk "onPlayerChat" true .rboolOrVoid).optional = true :=
  (event_handler_slots_decl ⟨"onPlayerChat", true, .rboolOrVoid⟩
    (by decide)).1 (by decide)

/-- C6: the extended `RoomConfig` recognizes exactly the eleven options
the specification lists; `token` is required in it, `proxy`, `debug` and
`webrtc` are optional, and every field of the base `RoomConfigObject` is
optional. -/
theorem roomConfig_recognized_options :
    roomConfigFields.map FieldDecl.name =
      ["token", "proxy", "debug", "webrtc", "roomName", "playerName",
       "password", "maxPlayers", "public", "geo", "noPlayer"]
    ∧ (roomConfigFields.map FieldDecl.name).Perm specClaimedConfigOptionNames
    ∧ (findField roomConfigFields "token").map FieldDecl.optional = some false
    ∧ (findField roomConfigFields "proxy").map FieldDecl.optional = some true
    ∧ (findField roomConfigFields "debug").map FieldDecl.optional = some true
    ∧ (findField roomConfigFields "webrtc").map FieldDecl.optional = some true
    ∧ roomConfigObjectFields.all (fun f => f.optional) = true := by decide

/-- C8 counterexample: `CollisionFlagsObject` declares `redKO`, `blueKO`
and `all` in addition to the flags the claim enumerates, so its field set
is not the claimed ten-element set. -/
theorem collisionFlags_extra_fields_counterexample :
    "redKO" ∈ collisionFlagsFields.map FieldDecl.name
    ∧ "blueKO" ∈ collisionFlagsFields.map FieldDecl.name
    ∧ "all" ∈ collisionFlagsFields.map FieldDecl.name
    ∧ "redKO" ∉ specClaimedCollisionFlagNames
    ∧ ¬ (collisionFlagsFields.map FieldDecl.name).Perm
        specClaimedCollisionFlagNames := by decide

/-- C8 (amended): the collision-flags table is a fixed set of named
numeric bitmask constants consisting of ball, red, blue, wall, kick and
score, the additional flags redKO, blueKO and all, plus exactly four
custom slots c0, c1, c2, c3; every entry is a required `number` field, and
`RoomObject` exposes the table as its `CollisionFlags` property. -/
theorem collisionFlags_field_table :
    collisionFlagsFields.map FieldDecl.name =
      ["ball", "red", "blue", "redKO", "blueKO", "wall", "all", "kick",
       "score", "c0", "c1", "c2", "c3"]
    ∧ collisionFlagsFields.all
        (fun f => !f.optional && decide (f.ty = TSType.named "number")) = true
    ∧ (collisionFlagsFields.map FieldDecl.name).filter isCustomSlotName
        = ["c0", "c1", "c2", "c3"]
    ∧ specClaimedCollisionFlagNames ⊆ collisionFlagsFields.map FieldDecl.name := by
  refine ⟨by decide, by decide, by decide, by decide⟩

/-- C9 counterexample: in `src/test/room.js` the room-creation test is
declared with a plain `it(...)`, so with no token variable set it is still
scheduled — contradicting the claim that it runs only when
`CI_HB_HEADLESS_TOKEN` or `TEST_HB_HEADLESS_TOKEN` is set. -/
theorem roomJs_create_unconditional_counterexample :
    roomJsCreateScheduled emptyTestEnv = true
    ∧ truthy emptyTestEnv.ciToken = false
    ∧ truthy emptyTestEnv.testToken = false := by decide

/-- C9 (amended): a fixed 5000 ms delay precedes every test in both
versions of the harness; in `src/unnamed/part_000` the room-creation test
is scheduled exactly when `CI_HB_HEADLESS_TOKEN` or
`TEST_HB_HEADLESS_TOKEN` is set non-empty, while in `src/test/room.js` it
is scheduled unconditionally; in both versions the proxy test is scheduled
exactly when `CI_HB_PROXY` or `TEST_HB_PROXY` is set non-empty, and its
body additionally skips when `CI_HB_PROXY` equals `'1'`. -/
theorem test_harness_gating (e : TestEnv) :
    harnessBeforeEachDelayMs = 5000
    ∧ roomJsCreateScheduled e = true
    ∧ part000CreateScheduled e = (truthy e.ciToken || truthy e.testToken)
    ∧ roomJsProxyScheduled e = (truthy e.ciProxy || truthy e.testProxy)
    ∧ part000ProxyScheduled e = (truthy e.ciProxy || truthy e.testProxy)
    ∧ roomJsProxyBodyRuns e
        = ((truthy e.ciProxy || truthy e.testProxy) && !(e.ciProxy == some "1"))
    ∧ part000ProxyBodyRuns e
        = ((truthy e.ciProxy || truthy e.testProxy) && !(e.ciProxy == some "1")) := by
  refine ⟨rfl, rfl, ?_, ?_, ?_, ?_, ?_⟩ <;>
    simp [part000CreateScheduled, roomJsProxyScheduled, part000ProxyScheduled,
      roomJsProxyBodyRuns, part000ProxyBodyRuns, truthy_envOr]

/-- C1: with the room, player-disc and disc state known, `setDiscProperties`
(and `setPlayerDiscProperties`) merge the supplied partial value into the
existing disc: applying `{x: 5}` and reading back yields `x = 5` with every
other field identical, and in general every field present in the argument
is updated while every absent field keeps its previous value. -/
theorem setDiscProperties_partial_update (r : RoomState) (i pid : Nat)
    (p : PartialDiscProperties) (d e : DiscPropertiesObject)
    (hd : getDiscProperties r i = some d)
    (he : getPlayerDiscProperties r pid = some e) :
    getDiscProperties (setDiscProperties r i (onlyX 5)) i
        = some { d with x := 5 }
    ∧ getDiscProperties (setDiscProperties r i p) i
        = some (applyDiscProperties d p)
    ∧ getPlayerDiscProperties (setPlayerDiscProperties r pid p) pid
        = some (applyDiscProperties e p)
    ∧ (p.x = none → (applyDiscProperties d p).x = d.x)
    ∧ (∀ v, p.x = some v → (applyDiscProperties d p).x = v)
    ∧ (p.y = none → (applyDiscProperties d p).y = d.y)
    ∧ (∀ v, p.y = some v → (applyDiscProperties d p).y = v)
    ∧ (p.xspeed = none → (applyDiscProperties d p).xspeed = d.xspeed)
    ∧ (∀ v, p.xspeed = some v → (applyDiscProperties d p).xspeed = v)
    ∧ (p.yspeed = none → (applyDiscProperties d p).yspeed = d.yspeed)
    ∧ (∀ v, p.yspeed = some v → (applyDiscProperties d p).yspeed = v)
    ∧ (p.xgravity = none → (applyDiscProperties d p).xgravity = d.xgravity)
    ∧ (∀ v, p.xgravity = some v → (applyDiscProperties d p).xgravity = v)
    ∧ (p.ygravity = none → (applyDiscProperties d p).ygravity = d.ygravity)
    ∧ (∀ v, p.ygravity = some v → (applyDiscProperties d p).ygravity = v)
    ∧ (p.radius = none → (applyDiscProperties d p).radius = d.radius)
    ∧ (∀ v, p.radius = some v → (applyDiscProperties d p).radius = v)
    ∧ (p.bCoeff = none → (applyDiscProperties d p).bCoeff = d.bCoeff)
    ∧ (∀ v, p.bCoeff = some v → (applyDiscProperties d p).bCoeff = v)
    ∧ (p.invMass = none → (applyDiscProperties d p).invMass = d.invMass)
    ∧ (∀ v, p.invMass = some v → (applyDiscProperties d p).invMass = v)
    ∧ (p.damping = none → (applyDiscProperties d p).damping = d.damping)
    ∧ (∀ v, p.damping = some v → (applyDiscProperties d p).damping = v)
    ∧ (p.color = none → (applyDiscProperties d p).color = d.color)
    ∧ (∀ v, p.color = some v → (applyDiscProperties d p).color = v)
    ∧ (p.cMask = none → (applyDiscProperties d p).cMask = d.cMask)
    ∧ (∀ v, p.cMask = some v → (applyDiscProperties d p).cMask = v)
    ∧ (p.cGroup = none → (applyDiscProperties d p).cGroup = d.cGroup)
    ∧ (∀ v, p.cGroup = some v → (applyDiscProperties d p).cGroup = v) := by
  have hx5 := setDiscList_getElem? r.discs i (onlyX 5) d hd
  have hmain := setDiscList_getElem? r.discs i p d hd
  obtain ⟨en, hen, hsnd⟩ := Option.map_eq_some'.mp he
  have hplayer : getPlayerDiscProperties (setPlayerDiscProperties r pid p) pid
      = some (applyDiscProperties e p) := by
    simp only [getPlayerDiscProperties, setPlayerDiscProperties]
    rw [find?_key_update, hen]
    simp [hsnd]
  exact ⟨hx5, hmain, hplayer,
    fun h => by simp [applyDiscProperties, h],
    fun v h => by simp [applyDiscProperties, h],
    fun h => by simp [applyDiscProperties, h],
    fun v h => by simp [applyDiscProperties, h],
    fun h => by simp [applyDiscProperties, h],
    fun v h => by simp [applyDiscProperties, h],
    fun h => by simp [applyDiscProperties, h],
    fun v h => by simp [applyDiscProperties, h],
    fun h => by simp [applyDiscProperties, h],
    fun v h => by simp [applyDiscProperties, h],
    fun h => by simp [applyDiscProperties, h],
    fun v h => by simp [applyDiscProperties, h],
    fun h => by simp [applyDiscProperties, h],
    fun v h => by simp [applyDiscProperties, h],
    fun h => by simp [applyDiscProperties, h],
    fun v h => by simp [applyDiscProperties, h],
    fun h => by simp [applyDiscProperties, h],
    fun v h => by simp [applyDiscProperties, h],
    fun h => by simp [applyDiscProperties, h],
    fun v h => by simp [applyDiscProperties, h],
    fun h => by simp [applyDiscProperties, h],
    fun v h => by simp [applyDiscProperties, h],
    fun h => by simp [applyDiscProperties, h],
    fun v h => by simp [applyDiscProperties, h],
    fun h => by simp [applyDiscProperties, h],
    fun v h => by simp [applyDiscProperties, h]⟩

/-- C1 witness: on a concrete one-disc room, applying `{x: 5}` to disc 0
and reading it back yields `x = 5` with all other fields unchanged. -/
theorem setDiscProperties_partial_update_witness :
    getDiscProperties witnessRoom 0 = some witnessDisc
    ∧ getDiscProperties (setDiscProperties witnessRoom 0 (onlyX 5)) 0
        = some { witnessDisc with x := 5 } :=
  ⟨rfl, (setDiscProperties_partial_update witnessRoom 0 7 (onlyX 5)
    witnessDisc witnessDisc rfl rfl).1⟩

/-- C2: when the referenced entity does not exist, each accessor returns
`none` (the embedding of a null return) — `getPlayer` when no connected
player has the id, `getDiscProperties` when the index is past the disc
list, `getPlayerDiscProperties` and `getInputObject` when no entry carries
the id.  All four accessors are total functions, so absence is a normal
return value rather than a raised error. -/
theorem accessors_absent_return_null (r : RoomState) (pid i qid rid : Nat) :
    ((∀ pl ∈ r.players, pl.id ≠ pid) → getPlayer r pid = none)
    ∧ (r.discs.length ≤ i → getDiscProperties r i = none)
    ∧ ((∀ en ∈ r.playerDiscs, en.1 ≠ qid) → getPlayerDiscProperties r qid = none)
    ∧ ((∀ en ∈ r.inputs, en.1 ≠ rid) → getInputObject r rid = none) := by
  refine ⟨fun h => ?_, fun h => ?_, fun h => ?_, fun h => ?_⟩
  · exact List.find?_eq_none.mpr fun pl hm => by simpa using h pl hm
  · exact List.getElem?_eq_none h
  · have hf : (r.playerDiscs.find? fun en => en.1 == qid) = none :=
      List.find?_eq_none.mpr fun en hm => by simpa using h en hm
    simp [getPlayerDiscProperties, hf]
  · have hf : (r.inputs.find? fun en => en.1 == rid) = none :=
      List.find?_eq_none.mpr fun en hm => by simpa using h en hm
    simp [getInputObject, hf]

/-- C2 witness: on the empty room, every accessor returns `none` for id 0. -/
theorem accessors_absent_return_null_witness :
    getPlayer emptyRoomState 0 = none
    ∧ getDiscProperties emptyRoomState 0 = none
    ∧ getPlayerDiscProperties emptyRoomState 0 = none
    ∧ getInputObject emptyRoomState 0 = none :=
  ⟨(accessors_absent_return_null emptyRoomState 0 0 0 0).1 (by decide),
   (accessors_absent_return_null emptyRoomState 0 0 0 0).2.1 (by decide),
   (accessors_absent_return_null emptyRoomState 0 0 0 0).2.2.1 (by decide),
   (accessors_absent_return_null emptyRoomState 0 0 0 0).2.2.2 (by decide)⟩

/-- C4: the stadium schema validator accepts a stadium exactly when every
segment's `v0`/`v1` is a valid position in its `vertexes` sequence and
every joint's `d0`/`d1` is a valid position in its `discs` sequence — in
particular any stadium carrying an out-of-range index is rejected rather
than accepted. -/
theorem stadium_index_validation (s : StadiumObject) :
    stadiumIndicesValid s = true ↔
      ((∀ seg ∈ s.segments,
          0 ≤ seg.v0 ∧ seg.v0 < (s.vertexes.length : Int)
          ∧ 0 ≤ seg.v1 ∧ seg.v1 < (s.vertexes.length : Int))
       ∧ (∀ j ∈ s.joints,
          0 ≤ j.d0 ∧ j.d0 < (s.discs.length : Int)
          ∧ 0 ≤ j.d1 ∧ j.d1 < (s.discs.length : Int))) := by
  simp [stadiumIndicesValid, validIndex, List.all_eq_true, Bool.and_eq_true,
    decide_eq_true_eq, and_assoc]

/-- C7: every colour form round-trips through serialization — the literal
`transparent`, any 6-hex-digit string, and any 3-element numeric triplet
parse back to themselves — and the colour-typed fields of `Segment`,
`Disc`, `Joint` and `BackgroundObject` all carry the same `Color` type. -/
theorem color_roundtrip (s : String) (r g b : Int) :
    parseColor (serializeColor .transparent) = some .transparent
    ∧ (isHex6 s = true → parseColor (serializeColor (.hex s)) = some (.hex s))
    ∧ parseColor (serializeColor (.rgb r g b)) = some (.rgb r g b)
    ∧ findField segmentFields "color" = some ⟨"color", true, .named "Color"⟩
    ∧ discColorField = ⟨"color", true, .named "Color"⟩
    ∧ jointColorField = ⟨"color", true, .named "Color"⟩
    ∧ backgroundColorField = ⟨"color", true, .named "Color"⟩ := by
  refine ⟨by decide, fun h => ?_, rfl, by decide, by decide, by decide, by decide⟩
  by_cases hs : s = "transparent"
  · subst hs
    exact absurd h (by decide)
  · simp [serializeColor, parseColor, hs, h]

/-- C7 witness: the three concrete forms `transparent`, `FF0000` and
`[0, 200, 0]` each round-trip. -/
theorem color_roundtrip_witness :
    isHex6 "FF0000" = true
    ∧ parseColor (serializeColor (Color.hex "FF0000"))
        = some (Color.hex "FF0000")
    ∧ parseColor (serializeColor (Color.rgb 0 200 0))
        = some (Color.rgb 0 200 0)
    ∧ parseColor (serializeColor Color.transparent) = some Color.transparent :=
  ⟨by decide, (color_roundtrip "FF0000" 0 200 0).2.1 (by decide),
   (color_roundtrip "FF0000" 0 200 0).2.2.1,
   (color_roundtrip "FF0000" 0 200 0).1⟩

/-- C10: the declared `Vertex` interface carries only the optional fields
`bCoef`, `cMask`, `cGroup` and `trait` — in particular no `x` or `y`
coordinate — even though `Segment` references vertexes through its
required numeric `v0`/`v1` index fields. -/
theorem vertex_no_coordinates :
    vertexFields.map FieldDecl.name = ["bCoef", "cMask", "cGroup", "trait"]
    ∧ vertexFields.all (fun f => f.optional) = true
    ∧ "x" ∉ vertexFields.map FieldDecl.name
    ∧ "y" ∉ vertexFields.map FieldDecl.name
    ∧ (findField segmentFields "v0")
        = some ⟨"v0", false, .named "number"⟩
    ∧ (findField segmentFields "v1")
        = some ⟨"v1", false, .named "number"⟩ := by decide

end Haxball
